import Mathlib

/-!
Verification of the conversion-job progress/ETA logic of the kcc-cloud
frontend.  The functions below are shallow embeddings of
`app/frontend/components/file-conversion-card.tsx`,
`app/frontend/components/conversion-queue.tsx`,
`app/frontend/hooks/useQueueUpdates.ts` and
`app/frontend/hooks/useQueuePolling.ts`.  JavaScript numbers are modelled
as exact rationals; wall-clock timestamps are epoch milliseconds (ISO
strings are taken as already parsed via `new Date(...).getTime()`), and
`undefined`/absent fields are modelled with `Option`.
-/

namespace KccCloud

/-- The `upload_progress` object consumed by `FileConversionCard`
(`file-conversion-card.tsx`, interface `FileConversionCardProps`). -/
structure CardUploadProgress where
  percentage : ℚ
  uploaded_bytes : Option ℚ
deriving DecidableEq

/-- The `processing_progress` object (`file-conversion-card.tsx`):
`eta_at` is an absolute ETA timestamp (ms), `projected_eta` a
seconds-remaining estimate. -/
structure ProcessingProgress where
  eta_at : Option ℚ
  projected_eta : Option ℚ
deriving DecidableEq

/-- The `file` prop of `FileConversionCard` restricted to the fields the
progress computation reads (`file-conversion-card.tsx` lines 10-38 plus the
dynamically accessed top-level `eta_at`). -/
structure CardFile where
  status : String
  upload_progress : Option CardUploadProgress
  processing_at : Option ℚ
  eta_at : Option ℚ
  processing_progress : Option ProcessingProgress
deriving DecidableEq

/-- `computeProcessingPct` (`file-conversion-card.tsx` lines 121-143):
prefers the absolute ETA timestamp (top-level `eta_at`, else
`processing_progress.eta_at`), falling back to `projected_eta`; the total
duration is clamped below by 1 second and the result to `[0, 99]`. -/
def computeProcessingPct (f : CardFile) (now : ℚ) : ℤ :=
  match f.processing_at with
  | none => 0
  | some startedMs =>
    match f.eta_at <|> (f.processing_progress.bind (·.eta_at)) with
    | some etaMs =>
      let total := max 1 ((etaMs - startedMs) / 1000)
      let elapsed := max 0 ((now - startedMs) / 1000)
      let pct := ⌊elapsed / total * 100⌋
      max 0 (min 99 pct)
    | none =>
      match f.processing_progress.bind (·.projected_eta) with
      | some eta =>
        if 0 < eta then
          let elapsedSec := max 0 ((now - startedMs) / 1000)
          max 0 (min 99 ⌊elapsedSec / eta * 100⌋)
        else 0
      | none => 0

/-- `getProgressPercentage` (`file-conversion-card.tsx` lines 145-156). -/
def getProgressPercentage (f : CardFile) (now : ℚ) : ℚ :=
  if f.status = "UPLOADING" ∧ f.upload_progress.isSome then
    (f.upload_progress.map (·.percentage)).getD 0
  else if f.status = "PROCESSING" then
    (computeProcessingPct f now : ℚ)
  else if f.status = "COMPLETE" ∨ f.status = "ERROR" then 100
  else 0

/-- The processing branch shared by `getTimelineStage` (lines 735-743) and
`getProgressInfo` (lines 1196-1207) of `conversion-queue.tsx`: progress from
the top-level `processing_at`/`eta_at` timestamps, denominator clamped below
by 1 second, result clamped to `[0, 99]` then floored. -/
def processingPctFromTimestamps (processingAtMs etaMs nowMs : ℚ) : ℤ :=
  let totalSec := max 1 ((etaMs - processingAtMs) / 1000)
  let elapsedSec := max 0 ((nowMs - processingAtMs) / 1000)
  ⌊max 0 (min 99 (elapsedSec / totalSec * 100))⌋

/-- The absolute-anchor branch of `computeProcessingPct`
(`file-conversion-card.tsx` lines 129-135), as a standalone function of the
two anchors and the current time. -/
def absoluteAnchorPct (startedMs etaMs now : ℚ) : ℤ :=
  let total := max 1 ((etaMs - startedMs) / 1000)
  let elapsed := max 0 ((now - startedMs) / 1000)
  max 0 (min 99 ⌊elapsed / total * 100⌋)

/-- The `projected_eta` fallback branch of `computeProcessingPct`
(`file-conversion-card.tsx` lines 136-141). -/
def projectedEtaPct (startedMs eta now : ℚ) : ℤ :=
  max 0 (min 99 ⌊(max 0 ((now - startedMs) / 1000)) / eta * 100⌋)

/-- The processing-ticker initialisation of `processingEtaSec`
(`conversion-queue.tsx` lines 122-158): with an absolute ETA timestamp
(top-level `eta_at`, else `processing_progress.eta_at`) the total duration is
derived from the anchors; otherwise a positive `projected_eta` is used
directly; with neither, the ticker is not initialised. -/
def initProcessingEtaSec (processingAtMs : ℚ)
    (etaAtTop ppEtaAt projected : Option ℚ) : Option ℚ :=
  match etaAtTop <|> ppEtaAt with
  | some etaMs => some (max 1 ((etaMs - processingAtMs) / 1000))
  | none =>
    match projected with
    | some p => if 0 < p then some p else none
    | none => none

/-- Per-tick clamped percentage computed by the processing ticker
(`conversion-queue.tsx` lines 195-197). -/
def tickerNextValue (processingStartTime processingEtaSec now : ℚ) : ℚ :=
  max 0 (min 99 ((now - processingStartTime) / 1000 / processingEtaSec * 100))

/-- The ticker's state update (`conversion-queue.tsx` lines 198-199):
`setClientProcessingProgress(prev => Math.max(prev, next))`. -/
def tickerUpdate (prev processingStartTime processingEtaSec now : ℚ) : ℚ :=
  max prev (tickerNextValue processingStartTime processingEtaSec now)

/-- `SPEED_EMIT_INTERVAL_MS` (`conversion-queue.tsx` line 112). -/
def SPEED_EMIT_INTERVAL_MS : ℚ := 5000

/-- `SPEED_MEDIAN_WINDOW` (`conversion-queue.tsx` line 113): parsed from
`NEXT_PUBLIC_UPLOAD_SPEED_WINDOW` with default `"8"`. -/
def SPEED_MEDIAN_WINDOW : ℕ := 8

/-- `median` (`conversion-queue.tsx` lines 114-119): 0 on the empty list,
else sort ascending and take the middle element, or the average of the two
middle elements when the length is even. -/
def median (arr : List ℚ) : ℚ :=
  if arr.length = 0 then 0
  else
    let sorted := arr.insertionSort (· ≤ ·)
    let mid := arr.length / 2
    if arr.length % 2 = 0 then (sorted.getD (mid - 1) 0 + sorted.getD mid 0) / 2
    else sorted.getD mid 0

/-- The rolling-window append (`conversion-queue.tsx` lines 437-444):
`arr.push(instSpeed)` followed by `while (arr.length > SPEED_MEDIAN_WINDOW)
arr.shift()`. -/
def pushWindow (arr : List ℚ) (s : ℚ) (w : ℕ) : List ℚ :=
  let a := arr ++ [s]
  a.drop (a.length - w)

/-- One upload-progress observation handled by the publishing effect of
`conversion-queue.tsx` (lines 403-475) for a single job: the wall-clock
time of the effect run, the reported percentage, and the file's byte size. -/
structure UploadEvent where
  now : ℚ
  uploadProgress : ℚ
  size : ℚ
deriving DecidableEq

/-- The per-job slice of the React state the publishing effect reads and
writes: `jobUploadStartTimes.has(jobId)` (as `tracked`),
`jobSpeedHistories`, `jobLastUploadProgress`, `jobLastUploadTime`,
`jobLastSpeedEmit`, `jobUploadSpeeds` and `jobUploadEtas`. -/
structure UploadTrackState where
  tracked : Bool
  hist : List ℚ
  lastProgress : Option ℚ
  lastTime : Option ℚ
  lastEmit : Option ℚ
  speed : Option ℚ
  eta : Option ℤ
deriving DecidableEq

/-- The instantaneous speed sample of `conversion-queue.tsx` lines 432-434:
bytes uploaded in this interval divided by the interval in seconds. -/
def instSpeedOf (s : UploadTrackState) (ev : UploadEvent) : ℚ :=
  ((ev.uploadProgress - s.lastProgress.getD 0) / 100 * ev.size)
    / ((ev.now - s.lastTime.getD ev.now) / 1000)

/-- One run of the publishing effect for one job (`conversion-queue.tsx`
lines 406-474).  All reads are from the pre-step state: React state
variables are constants within one effect run, and the queued functional
`set*` updates form the post-step state.  In particular the median
published inside the 5-second gate is computed from
`jobSpeedHistories.get(jobId)` as captured by the closure, i.e. the history
WITHOUT the sample appended during the same run. -/
def uploadStep (s : UploadTrackState) (ev : UploadEvent) : UploadTrackState :=
  if ev.uploadProgress = 0 ∧ s.tracked = false then
    { s with tracked := true, hist := [], lastProgress := some 0,
             lastTime := some ev.now, lastEmit := some 0 }
  else
    let lastProgress := s.lastProgress.getD 0
    let lastTime := s.lastTime.getD ev.now
    if lastProgress < ev.uploadProgress ∧ ev.uploadProgress < 100 then
      let timeDiff := (ev.now - lastTime) / 1000
      let progressDiff := ev.uploadProgress - lastProgress
      if 0 < timeDiff ∧ 0 < progressDiff then
        let totalBytes := ev.size
        let uploadedBytes := progressDiff / 100 * totalBytes
        let instSpeed := uploadedBytes / timeDiff
        let hist2 := pushWindow s.hist instSpeed SPEED_MEDIAN_WINDOW
        if SPEED_EMIT_INTERVAL_MS ≤ ev.now - s.lastEmit.getD 0 then
          let med := median s.hist
          let etaSeconds := if 0 < med then (totalBytes - uploadedBytes) / med else 0
          { s with hist := hist2,
                   lastProgress := some ev.uploadProgress,
                   lastTime := some ev.now,
                   speed := some med,
                   eta := if 0 < etaSeconds ∧ etaSeconds < 3600
                          then some ⌈etaSeconds⌉ else s.eta,
                   lastEmit := some ev.now }
        else
          { s with hist := hist2,
                   lastProgress := some ev.uploadProgress,
                   lastTime := some ev.now }
      else s
    else s

/-- The exact condition under which a run of the publishing effect reaches
the 5-second gate's publish branch. -/
def uploadStepEmits (s : UploadTrackState) (ev : UploadEvent) : Prop :=
  ¬(ev.uploadProgress = 0 ∧ s.tracked = false)
  ∧ s.lastProgress.getD 0 < ev.uploadProgress
  ∧ ev.uploadProgress < 100
  ∧ 0 < (ev.now - s.lastTime.getD ev.now) / 1000
  ∧ SPEED_EMIT_INTERVAL_MS ≤ ev.now - s.lastEmit.getD 0

/-- The `upload_progress` object of a `queue_update` message
(`useQueueUpdates.ts` lines 15-21, `useQueuePolling.ts` lines 13-19). -/
structure QueueUploadProgress where
  completed_parts : ℤ
  total_parts : ℤ
  uploaded_bytes : ℚ
  total_bytes : ℚ
  percentage : ℚ
deriving DecidableEq

/-- A job snapshot in a `queue_update` message (`useQueueUpdates.ts`
lines 4-23).  `status` is the runtime string; its declared TypeScript union
is `declaredQueueJobStatuses` below. -/
structure QueueJob where
  job_id : String
  filename : String
  output_filename : Option String
  status : String
  device_profile : String
  file_size : ℚ
  output_file_size : Option ℚ
  completed_at : Option String
  processing_at : Option String
  eta_at : Option String
  upload_progress : Option QueueUploadProgress
  queue_position : Option ℤ
deriving DecidableEq

/-- A full `queue_update` message (`useQueueUpdates.ts` lines 25-29). -/
structure QueueStatus where
  jobs : List QueueJob
  total : ℤ
  timestamp : String
deriving DecidableEq

/-- The `queue_update` handler of both hooks (`useQueueUpdates.ts`
lines 65-82, `useQueuePolling.ts` lines 88-91): `setQueueStatus(data)` —
the incoming message replaces the whole client queue state. -/
def applyQueueUpdate (_prev : Option QueueStatus) (msg : QueueStatus) :
    Option QueueStatus :=
  some msg

/-- The status union type declared by `QueueJob` in both
`useQueueUpdates.ts` (line 8) and `useQueuePolling.ts` (line 8). -/
def declaredQueueJobStatuses : List String :=
  ["UPLOADING", "QUEUED", "PROCESSING", "COMPLETE", "ERRORED", "CANCELLED"]

/-- The six status values named by the spec (§3) and by the backend's own
persistence notes (`backend/app/DB_CONNECTION_AUDIT.md`: terminal states
"QUEUED, COMPLETE, ERROR, CANCELLED"), and compared against at runtime
throughout the frontend (`file-conversion-card.tsx`, `my-downloads.tsx`). -/
def runtimeStatusValues : List String :=
  ["UPLOADING", "QUEUED", "PROCESSING", "COMPLETE", "ERROR", "CANCELLED"]

/-- Bounds shared by every branch of `computeProcessingPct`: the result is
always within `[0, 99]`. -/
theorem computeProcessingPct_bounds (f : CardFile) (now : ℚ) :
    0 ≤ computeProcessingPct f now ∧ computeProcessingPct f now ≤ 99 := by
  unfold computeProcessingPct
  rcases f.processing_at with _ | s
  · simp
  · rcases f.eta_at <|> (f.processing_progress.bind (·.eta_at)) with _ | e
    · rcases f.processing_progress.bind (·.projected_eta) with _ | p
      · simp
      · simp only []
        split
        · exact ⟨le_max_left _ _, max_le (by norm_num) (min_le_left _ _)⟩
        · simp
    · exact ⟨le_max_left _ _, max_le (by norm_num) (min_le_left _ _)⟩

/-- Bounds for the `conversion-queue.tsx` timestamp-based percentage. -/
theorem processingPctFromTimestamps_bounds (s e now : ℚ) :
    0 ≤ processingPctFromTimestamps s e now ∧
      processingPctFromTimestamps s e now ≤ 99 := by
  unfold processingPctFromTimestamps
  constructor
  · exact Int.floor_nonneg.mpr (le_max_left _ _)
  · have h : max 0 (min 99 ((max 0 ((now - s) / 1000)) / (max 1 ((e - s) / 1000)) * 100)) ≤ (99 : ℚ) :=
      max_le (by norm_num) (min_le_left _ _)
    calc ⌊max 0 (min 99 ((max 0 ((now - s) / 1000)) / (max 1 ((e - s) / 1000)) * 100))⌋
        ≤ ⌊(99 : ℚ)⌋ := Int.floor_le_floor h
      _ = 99 := by norm_num

/-- C1 (amended): when the absolute ETA anchor lies at least one second after
the processing anchor (so the 1-second lower clamp on the total duration is
inactive), `computeProcessingPct` yields exactly 50 at the midpoint,
exactly 99 at and after the ETA anchor, and never reaches 100. -/
theorem processing_midpoint_50_eta_99
    (s e : ℚ) (pp : Option ProcessingProgress) (h : s + 1000 ≤ e) :
    computeProcessingPct
        { status := "PROCESSING", upload_progress := none, processing_at := some s,
          eta_at := some e, processing_progress := pp } (s + (e - s) / 2) = 50
    ∧ (∀ now, e ≤ now →
        computeProcessingPct
          { status := "PROCESSING", upload_progress := none, processing_at := some s,
            eta_at := some e, processing_progress := pp } now = 99)
    ∧ (∀ now, computeProcessingPct
          { status := "PROCESSING", upload_progress := none, processing_at := some s,
            eta_at := some e, processing_progress := pp } now < 100) := by
  have hd : (0:ℚ) < e - s := by linarith
  have hd1 : (1:ℚ) ≤ (e - s) / 1000 := by linarith
  have hmax : max (1:ℚ) ((e - s) / 1000) = (e - s) / 1000 := max_eq_right hd1
  refine ⟨?_, ?_, ?_⟩
  · simp only [computeProcessingPct, Option.some_orElse, hmax]
    have h2 : (s + (e - s) / 2 - s) / 1000 = (e - s) / 2000 := by ring
    have h3 : max (0:ℚ) ((e - s) / 2000) = (e - s) / 2000 :=
      max_eq_right (by linarith)
    rw [h2, h3]
    have h4 : (e - s) / 2000 / ((e - s) / 1000) * 100 = 50 := by
      field_simp
      ring
    rw [h4]
    norm_num
  · intro now hnow
    simp only [computeProcessingPct, Option.some_orElse, hmax]
    have h6 : max (0:ℚ) ((now - s) / 1000) = (now - s) / 1000 :=
      max_eq_right (by linarith)
    rw [h6]
    have h7 : (100:ℚ) ≤ (now - s) / 1000 / ((e - s) / 1000) * 100 := by
      have h71 : (1:ℚ) ≤ (now - s) / 1000 / ((e - s) / 1000) := by
        rw [one_le_div (by linarith : (0:ℚ) < (e - s) / 1000)]
        linarith
      linarith
    have h8 : (100:ℤ) ≤ ⌊(now - s) / 1000 / ((e - s) / 1000) * 100⌋ :=
      Int.le_floor.mpr (by exact_mod_cast h7)
    have h9 : min (99:ℤ) ⌊(now - s) / 1000 / ((e - s) / 1000) * 100⌋ = 99 :=
      min_eq_left (by omega)
    rw [h9]
    norm_num
  · intro now
    have := (computeProcessingPct_bounds
      { status := "PROCESSING", upload_progress := none, processing_at := some s,
        eta_at := some e, processing_progress := pp } now).2
    omega

/-- Witness for `processing_midpoint_50_eta_99` at a 100-second conversion
starting at epoch 0. -/
theorem processing_midpoint_50_eta_99_witness :
    computeProcessingPct
        { status := "PROCESSING", upload_progress := none, processing_at := some 0,
          eta_at := some 100000, processing_progress := none }
        (0 + (100000 - 0) / 2) = 50 :=
  (processing_midpoint_50_eta_99 0 100000 none (by norm_num)).1

/-- C1 counterexample: with a positive but sub-second gap between the two
anchors (`eta_at` 500 ms after `processing_at`), the 1-second lower clamp on
the total duration distorts the ratio: the midpoint progress is 25, not 50,
and the progress at the ETA anchor is 50, not 99. -/
theorem processing_midpoint_subsecond_counterexample :
    (0:ℚ) < 500
    ∧ (250:ℚ) = 0 + (500 - 0) / 2
    ∧ computeProcessingPct
        { status := "PROCESSING", upload_progress := none, processing_at := some 0,
          eta_at := some 500, processing_progress := none } 250 = 25
    ∧ computeProcessingPct
        { status := "PROCESSING", upload_progress := none, processing_at := some 0,
          eta_at := some 500, processing_progress := none } 500 = 50
    ∧ (25:ℤ) ≠ 50 := by
  refine ⟨by norm_num, by norm_num, ?_, ?_, by norm_num⟩
  · simp only [computeProcessingPct, Option.some_orElse]
    norm_num
  · simp only [computeProcessingPct, Option.some_orElse]
    norm_num

/-- C10: with a degenerate anchor pair (`eta_at` not after `processing_at`)
the guarded denominator collapses to exactly 1 second, stays positive, and
both the card's and the queue view's processing percentages remain within
`[0, 99]`. -/
theorem processing_pct_total_on_degenerate_anchors (s e : ℚ) (h : e ≤ s) :
    max 1 ((e - s) / 1000) = 1
    ∧ (0:ℚ) < max 1 ((e - s) / 1000)
    ∧ (∀ now pp,
        0 ≤ computeProcessingPct
            { status := "PROCESSING", upload_progress := none,
              processing_at := some s, eta_at := some e,
              processing_progress := pp } now
        ∧ computeProcessingPct
            { status := "PROCESSING", upload_progress := none,
              processing_at := some s, eta_at := some e,
              processing_progress := pp } now ≤ 99)
    ∧ (∀ now, 0 ≤ processingPctFromTimestamps s e now
        ∧ processingPctFromTimestamps s e now ≤ 99) := by
  refine ⟨max_eq_left (by linarith), lt_max_of_lt_left one_pos, ?_, ?_⟩
  · intro now pp
    exact computeProcessingPct_bounds _ now
  · intro now
    exact processingPctFromTimestamps_bounds s e now

/-- Witness for `processing_pct_total_on_degenerate_anchors`: ETA anchor 500 ms
before the processing anchor, observed 1 s later. -/
theorem processing_pct_total_on_degenerate_anchors_witness :
    max 1 (((500:ℚ) - 1000) / 1000) = 1
    ∧ (0 ≤ processingPctFromTimestamps 1000 500 2000
        ∧ processingPctFromTimestamps 1000 500 2000 ≤ 99) :=
  ⟨(processing_pct_total_on_degenerate_anchors 1000 500 (by norm_num)).1,
   (processing_pct_total_on_degenerate_anchors 1000 500 (by norm_num)).2.2.2 2000⟩

/-- C4 (amended): `getProgressPercentage` returns 100 only for the terminal
statuses COMPLETE/ERROR or when an UPLOADING job's reported upload percentage
is itself 100; a PROCESSING job never reaches 100; an UPLOADING job with a
progress report shows exactly the reported percentage. -/
theorem progress_100_only_on_terminal (f : CardFile) (now : ℚ) :
    (getProgressPercentage f now = 100 →
      f.status = "COMPLETE" ∨ f.status = "ERROR"
      ∨ (f.status = "UPLOADING" ∧ f.upload_progress.map (·.percentage) = some 100))
    ∧ (f.status = "PROCESSING" → getProgressPercentage f now < 100)
    ∧ (f.status = "UPLOADING" → ∀ up, f.upload_progress = some up →
        getProgressPercentage f now = up.percentage) := by
  refine ⟨?_, ?_, ?_⟩
  · intro h100
    unfold getProgressPercentage at h100
    split_ifs at h100 with h1 h2 h3
    · rcases h1 with ⟨hs, hup⟩
      rcases hopt : f.upload_progress with _ | up
      · rw [hopt] at hup
        simp at hup
      · rw [hopt] at h100
        simp only [Option.map_some', Option.getD_some] at h100
        exact Or.inr (Or.inr ⟨hs, by simp [hopt, h100]⟩)
    · have hb := (computeProcessingPct_bounds f now).2
      have : ((computeProcessingPct f now : ℚ)) = 100 := h100
      have : computeProcessingPct f now = 100 := by exact_mod_cast this
      omega
    · rcases h3 with h3 | h3
      · exact Or.inl h3
      · exact Or.inr (Or.inl h3)
    · norm_num at h100
  · intro hp
    unfold getProgressPercentage
    rw [if_neg (by rw [hp]; simp), if_pos hp]
    have hb := (computeProcessingPct_bounds f now).2
    have : ((computeProcessingPct f now : ℚ)) ≤ 99 := by exact_mod_cast hb
    linarith
  · intro hu up hup
    unfold getProgressPercentage
    rw [if_pos ⟨hu, by rw [hup]; rfl⟩, hup]
    rfl

/-- Witness for `progress_100_only_on_terminal`: a PROCESSING job halfway
through a 100-second conversion shows strictly less than 100%. -/
theorem progress_100_only_on_terminal_witness :
    getProgressPercentage
        { status := "PROCESSING", upload_progress := none, processing_at := some 0,
          eta_at := some 100000, processing_progress := none } 50000 < 100 :=
  (progress_100_only_on_terminal
    { status := "PROCESSING", upload_progress := none, processing_at := some 0,
      eta_at := some 100000, processing_progress := none } 50000).2.1 rfl

/-- C4 counterexample: an UPLOADING job whose transport reports 100% (the
final `onProgress(100)` emit in `lib` upload code) makes
`getProgressPercentage` return 100 although the status is not terminal. -/
theorem progress_100_uploading_counterexample :
    getProgressPercentage
        { status := "UPLOADING",
          upload_progress := some { percentage := 100, uploaded_bytes := none },
          processing_at := none, eta_at := none, processing_progress := none } 0 = 100
    ∧ ("UPLOADING" : String) ≠ "COMPLETE"
    ∧ ("UPLOADING" : String) ≠ "ERROR" := by
  refine ⟨?_, by decide, by decide⟩
  unfold getProgressPercentage
  rw [if_pos ⟨rfl, rfl⟩]
  rfl

/-- C7: when both an absolute ETA timestamp and a positive seconds-remaining
estimate are present, the progress computation uses the absolute-anchor
model (and is independent of the `projected_eta` value, whether the
timestamp sits at top level or inside `processing_progress`); the
seconds-remaining estimate is used only when no absolute timestamp exists.
The ticker initialisation follows the same precedence. -/
theorem absolute_eta_precedence (s e p q now : ℚ) (hp : 0 < p) (hq : 0 < q) :
    computeProcessingPct
        { status := "PROCESSING", upload_progress := none, processing_at := some s,
          eta_at := some e,
          processing_progress := some { eta_at := none, projected_eta := some p } } now
      = absoluteAnchorPct s e now
    ∧ computeProcessingPct
        { status := "PROCESSING", upload_progress := none, processing_at := some s,
          eta_at := some e,
          processing_progress := some { eta_at := none, projected_eta := some p } } now
      = computeProcessingPct
        { status := "PROCESSING", upload_progress := none, processing_at := some s,
          eta_at := some e,
          processing_progress := some { eta_at := none, projected_eta := some q } } now
    ∧ computeProcessingPct
        { status := "PROCESSING", upload_progress := none, processing_at := some s,
          eta_at := none,
          processing_progress := some { eta_at := some e, projected_eta := some p } } now
      = absoluteAnchorPct s e now
    ∧ computeProcessingPct
        { status := "PROCESSING", upload_progress := none, processing_at := some s,
          eta_at := none,
          processing_progress := some { eta_at := none, projected_eta := some p } } now
      = projectedEtaPct s p now
    ∧ initProcessingEtaSec s (some e) none (some p) = some (max 1 ((e - s) / 1000))
    ∧ initProcessingEtaSec s none (some e) (some p) = some (max 1 ((e - s) / 1000))
    ∧ initProcessingEtaSec s none none (some p) = some p := by
  refine ⟨rfl, rfl, rfl, ?_, rfl, rfl, ?_⟩
  · simp only [computeProcessingPct, projectedEtaPct, Option.none_orElse,
      Option.some_bind]
    rw [if_pos hp]
  · simp only [initProcessingEtaSec, Option.none_orElse]
    rw [if_pos hp]

/-- Witness for `absolute_eta_precedence`: halfway through a conversion with
`eta_at` 100 s after `processing_at` and a (conflicting) `projected_eta` of
60 s, the card uses the absolute anchors. -/
theorem absolute_eta_precedence_witness :
    computeProcessingPct
        { status := "PROCESSING", upload_progress := none, processing_at := some 0,
          eta_at := some 100000,
          processing_progress := some { eta_at := none, projected_eta := some 60 } } 50000
      = absoluteAnchorPct 0 100000 50000 :=
  (absolute_eta_precedence 0 100000 60 30 50000 (by norm_num) (by norm_num)).1

/-- Folding ticker updates never decreases the displayed value. -/
theorem le_foldl_tickerUpdate (start etaSec : ℚ) :
    ∀ (ticks : List ℚ) (p : ℚ),
      p ≤ ticks.foldl (fun a t => tickerUpdate a start etaSec t) p
  | [], p => le_refl p
  | t :: ts, p =>
    le_trans (le_max_left _ _) (le_foldl_tickerUpdate start etaSec ts _)

/-- C9: every ticker update is the maximum of the previous displayed value
and the newly computed clamped percentage, so the displayed processing
percentage never moves backwards along any sequence of ticks. -/
theorem ticker_progress_monotone (prev start etaSec now : ℚ) :
    tickerUpdate prev start etaSec now
        = max prev (max 0 (min 99 ((now - start) / 1000 / etaSec * 100)))
    ∧ prev ≤ tickerUpdate prev start etaSec now
    ∧ ∀ ticks : List ℚ,
        prev ≤ ticks.foldl (fun a t => tickerUpdate a start etaSec t) prev :=
  ⟨rfl, le_max_left _ _, fun ticks => le_foldl_tickerUpdate start etaSec ticks prev⟩

/-- On a publishing run, the published speed is the median of the pre-step
history, `lastEmit` moves to `now`, and the new sample enters the window. -/
theorem uploadStep_emit_fields (s : UploadTrackState) (ev : UploadEvent)
    (h : uploadStepEmits s ev) :
    (uploadStep s ev).speed = some (median s.hist)
    ∧ (uploadStep s ev).lastEmit = some ev.now
    ∧ (uploadStep s ev).hist
        = pushWindow s.hist (instSpeedOf s ev) SPEED_MEDIAN_WINDOW := by
  obtain ⟨h1, h2, h3, h4, h5⟩ := h
  have h2' : 0 < ev.uploadProgress - s.lastProgress.getD 0 := sub_pos.mpr h2
  simp only [uploadStep, instSpeedOf]
  rw [if_neg h1, if_pos ⟨h2, h3⟩, if_pos ⟨h4, h2'⟩, if_pos h5]
  exact ⟨rfl, rfl, rfl⟩

/-- On a non-publishing run, the published speed and ETA are untouched. -/
theorem uploadStep_no_emit_fields (s : UploadTrackState) (ev : UploadEvent)
    (h : ¬ uploadStepEmits s ev) :
    (uploadStep s ev).speed = s.speed ∧ (uploadStep s ev).eta = s.eta := by
  simp only [uploadStep]
  unfold uploadStepEmits at h
  by_cases g1 : ev.uploadProgress = 0 ∧ s.tracked = false
  · rw [if_pos g1]
    exact ⟨rfl, rfl⟩
  · rw [if_neg g1]
    by_cases g2 : s.lastProgress.getD 0 < ev.uploadProgress ∧ ev.uploadProgress < 100
    · rw [if_pos g2]
      by_cases g3 : 0 < (ev.now - s.lastTime.getD ev.now) / 1000
          ∧ 0 < ev.uploadProgress - s.lastProgress.getD 0
      · rw [if_pos g3]
        by_cases g4 : SPEED_EMIT_INTERVAL_MS ≤ ev.now - s.lastEmit.getD 0
        · exact absurd ⟨g1, g2.1, g2.2, g3.1, g4⟩ h
        · rw [if_neg g4]
          exact ⟨rfl, rfl⟩
      · rw [if_neg g3]
        exact ⟨rfl, rfl⟩
    · rw [if_neg g2]
      exact ⟨rfl, rfl⟩

/-- C2 (amended): at every emit point the published upload speed is the
median — middle element, or average of the two middle elements for an even
count — of the rolling window of the last `SPEED_MEDIAN_WINDOW` (= 8)
samples as the window stood entering the run: the sample measured during
the publishing run itself joins the window only afterwards.  The median,
unlike the mean, is illustrated robust against the spec's synthetic
100 MB/s outlier. -/
theorem published_speed_is_median (s : UploadTrackState) (ev : UploadEvent)
    (h : uploadStepEmits s ev) :
    (uploadStep s ev).speed = some (median s.hist)
    ∧ (uploadStep s ev).hist
        = pushWindow s.hist (instSpeedOf s ev) SPEED_MEDIAN_WINDOW
    ∧ SPEED_MEDIAN_WINDOW = 8
    ∧ (∀ l : List ℚ, l.Sorted (· ≤ ·) → l.length % 2 = 0 → l ≠ [] →
        median l = (l.getD (l.length / 2 - 1) 0 + l.getD (l.length / 2) 0) / 2)
    ∧ median [1, 2, 1, 2, 1, 2, 1] = 1
    ∧ median [1, 2, 1, 2, 1, 2, 1, 100] = 3 / 2
    ∧ (1 + 2 + 1 + 2 + 1 + 2 + 1 + 100 : ℚ) / 8 = 55 / 4
    ∧ median [1, 2, 1, 2, 1, 2, 1, 100] ≤ 2 := by
  refine ⟨(uploadStep_emit_fields s ev h).1, (uploadStep_emit_fields s ev h).2.2,
    rfl, ?_, ?_, ?_, by norm_num, ?_⟩
  · intro l hsort heven hne
    unfold median
    rw [if_neg (by simpa using hne), hsort.insertionSort_eq, if_pos heven]
  · norm_num [median, List.insertionSort, List.orderedInsert]
  · norm_num [median, List.insertionSort, List.orderedInsert]
  · norm_num [median, List.insertionSort, List.orderedInsert]

/-- Witness for `published_speed_is_median`: a publishing run over the
one-sample window `[1]`. -/
theorem published_speed_is_median_witness :
    (uploadStep ⟨true, [1], some 10, some 0, some 0, none, none⟩
        ⟨10000, 20, 3000⟩).speed
      = some (median [1]) :=
  (published_speed_is_median ⟨true, [1], some 10, some 0, some 0, none, none⟩
    ⟨10000, 20, 3000⟩
    ⟨by simp, by norm_num, by norm_num, by norm_num,
     by norm_num [SPEED_EMIT_INTERVAL_MS]⟩).1

/-- C2 counterexample: on a publishing run the effect reads the speed
history from the closure-captured (pre-update) React state, so the sample
measured in the same run is NOT part of the published median.  Window `[1]`,
new sample 30: the run publishes `median [1] = 1` even though the window
including the new sample is `[1, 30]` with median `31/2`. -/
theorem published_speed_excludes_new_sample_counterexample :
    (uploadStep ⟨true, [1], some 10, some 0, some 0, none, none⟩
        ⟨10000, 20, 3000⟩).speed = some 1
    ∧ (uploadStep ⟨true, [1], some 10, some 0, some 0, none, none⟩
        ⟨10000, 20, 3000⟩).hist = [1, 30]
    ∧ median [1, 30] = 31 / 2
    ∧ (1 : ℚ) ≠ 31 / 2 := by
  refine ⟨?_, ?_, ?_, by norm_num⟩ <;>
    norm_num [uploadStep, median, pushWindow, List.insertionSort,
      List.orderedInsert, SPEED_EMIT_INTERVAL_MS, SPEED_MEDIAN_WINDOW]

/-- C3 (code bug): the published ETA divides `totalBytes - uploadedBytes`
by the median speed, but `uploadedBytes` at this point
(`conversion-queue.tsx` line 433) holds only the bytes uploaded in the
current interval, not the bytes transferred so far.  For a 100 MB file at
60% with a 1 MB/s median and a 10 MB interval, the code publishes 90 s
where `remainingBytes / median` with the true remaining 40 MB gives 40 s. -/
theorem upload_eta_remaining_bytes_bug :
    (uploadStep ⟨true, [1000000], some 50, some 0, some 0, none, none⟩
        ⟨10000, 60, 100000000⟩).eta = some 90
    ∧ (100000000 - (60 / 100) * 100000000) / median [1000000] = 40
    ∧ ((90 : ℤ) ≠ 40) := by
  refine ⟨?_, ?_, by norm_num⟩ <;>
    norm_num [uploadStep, median, pushWindow, List.insertionSort,
      List.orderedInsert, SPEED_EMIT_INTERVAL_MS, SPEED_MEDIAN_WINDOW]

/-- C8: the `{speed, eta}` pair changes only at runs separated by at least
`SPEED_EMIT_INTERVAL_MS` (5000 ms): a sample-producing run less than 5 s
after the previous publication appends its sample to the rolling window but
leaves the published speed and ETA untouched; a publishing run stamps
`lastEmit := now`, so two consecutive publications are at least 5 s apart. -/
theorem speed_emit_cadence (s : UploadTrackState) (ev : UploadEvent)
    (h1 : ¬(ev.uploadProgress = 0 ∧ s.tracked = false))
    (h2 : s.lastProgress.getD 0 < ev.uploadProgress)
    (h3 : ev.uploadProgress < 100)
    (h4 : 0 < (ev.now - s.lastTime.getD ev.now) / 1000) :
    (ev.now - s.lastEmit.getD 0 < SPEED_EMIT_INTERVAL_MS →
      (uploadStep s ev).speed = s.speed
      ∧ (uploadStep s ev).eta = s.eta
      ∧ (uploadStep s ev).hist
          = pushWindow s.hist (instSpeedOf s ev) SPEED_MEDIAN_WINDOW)
    ∧ (uploadStepEmits s ev → (uploadStep s ev).lastEmit = some ev.now)
    ∧ (∀ ev2 : UploadEvent, uploadStepEmits s ev →
        uploadStepEmits (uploadStep s ev) ev2 →
        SPEED_EMIT_INTERVAL_MS ≤ ev2.now - ev.now) := by
  refine ⟨?_, ?_, ?_⟩
  · intro hlt
    have hne : ¬ uploadStepEmits s ev := by
      intro hem
      exact absurd hem.2.2.2.2 (not_le.mpr hlt)
    refine ⟨(uploadStep_no_emit_fields s ev hne).1,
      (uploadStep_no_emit_fields s ev hne).2, ?_⟩
    have h2' : 0 < ev.uploadProgress - s.lastProgress.getD 0 := sub_pos.mpr h2
    simp only [uploadStep, instSpeedOf]
    rw [if_neg h1, if_pos ⟨h2, h3⟩, if_pos ⟨h4, h2'⟩, if_neg (not_le.mpr hlt)]
  · intro hem
    exact (uploadStep_emit_fields s ev hem).2.1
  · intro ev2 hem hem2
    have hle := hem2.2.2.2.2
    rw [(uploadStep_emit_fields s ev hem).2.1] at hle
    simpa using hle

/-- Witness for `speed_emit_cadence`: a sample-producing run 1 s after the
last publication leaves the published speed at its previous value. -/
theorem speed_emit_cadence_witness :
    (uploadStep ⟨true, [1], some 10, some 0, some 0, some 1, some 7⟩
        ⟨1000, 20, 1000⟩).speed = some 1 :=
  ((speed_emit_cadence ⟨true, [1], some 10, some 0, some 0, some 1, some 7⟩
      ⟨1000, 20, 1000⟩ (by simp) (by norm_num) (by norm_num) (by norm_num)).1
    (by norm_num [SPEED_EMIT_INTERVAL_MS])).1

/-- Folding the replace-all reducer over any message sequence lands on the
last message. -/
theorem foldl_applyQueueUpdate :
    ∀ (msgs : List QueueStatus) (h : msgs ≠ []) (init : Option QueueStatus),
      msgs.foldl applyQueueUpdate init = some (msgs.getLast h)
  | [m], _, _ => rfl
  | _ :: m2 :: ms, _, init => by
      rw [List.foldl_cons, List.getLast_cons (List.cons_ne_nil m2 ms)]
      exact foldl_applyQueueUpdate (m2 :: ms) (List.cons_ne_nil m2 ms) _

/-- C5: the subscriber's `queue_update` reducer is last-write-wins: from any
starting state, processing a whole message sequence yields exactly the state
obtained by processing only the final message (from any other starting
state), so missed messages never require replay. -/
theorem queue_update_last_write_wins (init init2 : Option QueueStatus)
    (msgs : List QueueStatus) (h : msgs ≠ []) :
    msgs.foldl applyQueueUpdate init = applyQueueUpdate init2 (msgs.getLast h)
    ∧ msgs.foldl applyQueueUpdate init = some (msgs.getLast h) :=
  ⟨foldl_applyQueueUpdate msgs h init, foldl_applyQueueUpdate msgs h init⟩

/-- Witness for `queue_update_last_write_wins`: two concrete messages; the
subscriber who saw both and the subscriber who saw only the second agree. -/
theorem queue_update_last_write_wins_witness :
    [QueueStatus.mk [] 0 "t1",
     QueueStatus.mk
       [QueueJob.mk "job-1" "a.cbz" none "COMPLETE" "kindle" 5 none none
          none none none none] 1 "t2"].foldl applyQueueUpdate none
      = some (QueueStatus.mk
       [QueueJob.mk "job-1" "a.cbz" none "COMPLETE" "kindle" 5 none none
          none none none none] 1 "t2") :=
  (queue_update_last_write_wins none (some (QueueStatus.mk [] 7 "x"))
    [QueueStatus.mk [] 0 "t1",
     QueueStatus.mk
       [QueueJob.mk "job-1" "a.cbz" none "COMPLETE" "kindle" 5 none none
          none none none none] 1 "t2"] (List.cons_ne_nil _ _)).2

/-- C6 (code bug evidence): the declared union spells the failure status
`ERRORED`, but the value the rest of the repository produces and tests for
is `ERROR`: the card renders an `ERROR` job as a 100% terminal job while a
job carrying the declared `ERRORED` value would fall through every status
check and show 0%. -/
theorem status_enum_mismatch :
    ("ERROR" ∈ runtimeStatusValues)
    ∧ ("ERROR" ∉ declaredQueueJobStatuses)
    ∧ ("ERRORED" ∈ declaredQueueJobStatuses)
    ∧ ("ERRORED" ∉ runtimeStatusValues)
    ∧ getProgressPercentage
        { status := "ERROR", upload_progress := none, processing_at := none,
          eta_at := none, processing_progress := none } 0 = 100
    ∧ getProgressPercentage
        { status := "ERRORED", upload_progress := none, processing_at := none,
          eta_at := none, processing_progress := none } 0 = 0 := by
  refine ⟨by decide, by decide, by decide, by decide, ?_, ?_⟩ <;> rfl

end KccCloud
